import Mathlib

/-!
Verification of the NeoPixel rainbow driver (`src/main/esp32s3_onboard_LED.c`
and `src/main/led_strip_example_main.c`).

The C code computes an HSV→GRB color conversion with `float` arithmetic and
drives a single WS2812 LED from a mutable controller state.  The embedding
models the `float` computation as exact rational arithmetic (every quantity
involved is a small rational, and the claims under scrutiny are about the
algorithm's exact values), machine integers as `ℕ`/`ℤ` with explicit
reductions where overflow or conversion matters (`uint16_t` arguments reduce
modulo 2^16 at the call boundary), and the `ESP_ERROR_CHECK`-on-transmit
abort as an `Except` result that carries the memory state at the abort point.
-/

unseal Rat.mul Rat.inv Rat.add Rat.sub

/-- C `fmod` on the nonnegative arguments used by the converter (`fmod` rounds
the quotient toward zero, which coincides with `floor` for nonnegative
operands): `fmod(x, y) = x - y * ⌊x / y⌋`. -/
def fmodQ (x y : ℚ) : ℚ := x - y * ((x / y).floor : ℚ)

/-- The sector selection if-chain of `hsv_to_grb`
(`esp32s3_onboard_LED.c`, lines 83–96): picks the pre-offset `(r, g, b)`
triple for the 60°-wide sector containing `h`, with half-open sectors via
strict `<` comparisons exactly as in the source. -/
def sector_rgb (h : ℕ) (C X : ℚ) : ℚ × ℚ × ℚ :=
  if h < 60 then (C, X, 0)
  else if h < 120 then (X, C, 0)
  else if h < 180 then (0, C, X)
  else if h < 240 then (0, X, C)
  else if h < 300 then (X, 0, C)
  else (C, 0, X)

/-- `hsv_to_grb` from `esp32s3_onboard_LED.c` (lines 74–103).  The `uint16_t`
parameter is modelled as `ℕ` (callers pass values < 2^16; the function's first
action is `h %= 360` so larger `ℕ` inputs are harmless).  `float` arithmetic
is modelled exactly over `ℚ`; the final `float`→`uint8_t` stores truncate
toward zero, which is `floor` on these nonnegative values.  In the result
triple of `sector_rgb`, `.1` is `r`, `.2.1` is `g`, `.2.2` is `b`; the output
list is the GRB wire order `[g, r, b]` of the source. -/
def hsv_to_grb (h0 s v : ℕ) : List ℕ :=
  let h := h0 % 360
  let S : ℚ := (s : ℚ) / 100
  let V : ℚ := (v : ℚ) / 100
  let C : ℚ := V * S
  let X : ℚ := C * (1 - |fmodQ ((h : ℚ) / 60) 2 - 1|)
  let m : ℚ := V - C
  let rgb := sector_rgb h C X
  [((rgb.2.1 + m) * 255).floor.toNat,
   ((rgb.1 + m) * 255).floor.toNat,
   ((rgb.2.2 + m) * 255).floor.toNat]

/-- `hsv_to_grb` from `led_strip_example_main.c` (lines 22–48), embedded
independently of the production version: same modelling conventions, with the
sector if-chain written inline as it appears in that file.  In the local
triple `rgb`, `.1` is `r`, `.2.1` is `g`, `.2.2` is `b`. -/
def hsv_to_grb_example (h0 s v : ℕ) : List ℕ :=
  let h := h0 % 360
  let S : ℚ := (s : ℚ) / 100
  let V : ℚ := (v : ℚ) / 100
  let C : ℚ := V * S
  let X : ℚ := C * (1 - |fmodQ ((h : ℚ) / 60) 2 - 1|)
  let m : ℚ := V - C
  let rgb : ℚ × ℚ × ℚ :=
    if h < 60 then (C, X, 0)
    else if h < 120 then (X, C, 0)
    else if h < 180 then (0, C, X)
    else if h < 240 then (0, X, C)
    else if h < 300 then (X, 0, C)
    else (C, 0, X)
  [((rgb.2.1 + m) * 255).floor.toNat,
   ((rgb.1 + m) * 255).floor.toNat,
   ((rgb.2.2 + m) * 255).floor.toNat]

/-- Calling `hsv_to_grb` with an arbitrary C `int` hue: passing an `int` as
the `uint16_t h` parameter converts it modulo 2^16 (C integer conversion),
after which `hsv_to_grb` applies its own `h %= 360`. -/
def convert_int (h : ℤ) (s v : ℕ) : List ℕ :=
  hsv_to_grb (h % 65536).toNat s v

/-- Modelled from the spec (§4.1): the standard HSV→RGB sector-decomposition
result `raw_rgb(h,s,v)` in the computed `(r, g, b)` channel order — normalize
hue mod 360, chroma `C = V·S`, secondary `X = C·(1 − |((H/60) mod 2) − 1|)`,
offset `m = V − C`, sector selection, add `m`, scale by 255, truncate to an
8-bit integer.  Used to state the channel-reorder claim: the wire output must
be exactly a permutation `(g, r, b)` of this triple. -/
def raw_rgb (h0 s v : ℕ) : ℕ × ℕ × ℕ :=
  let h := h0 % 360
  let S : ℚ := (s : ℚ) / 100
  let V : ℚ := (v : ℚ) / 100
  let C : ℚ := V * S
  let X : ℚ := C * (1 - |fmodQ ((h : ℚ) / 60) 2 - 1|)
  let m : ℚ := V - C
  let rgb := sector_rgb h C X
  (((rgb.1 + m) * 255).floor.toNat,
   ((rgb.2.1 + m) * 255).floor.toNat,
   ((rgb.2.2 + m) * 255).floor.toNat)

/-- The observability record of `update_led_color` (lines 161–168): the
`ESP_LOGI` line prints the current hue and the three wire bytes. -/
structure LogRecord where
  hue : ℕ
  wire_bytes : List ℕ
deriving DecidableEq

/-- The software-visible state of `led_controller_t` (lines 48–53).  The RMT
`channel` and `encoder` fields are opaque hardware handles with no arithmetic
content; the transmit capability they feed is passed explicitly to
`update_led_color` instead. -/
structure led_controller_t where
  grb_data : List ℕ
  current_hue : ℕ
deriving DecidableEq

/-- `initialize_led_controller` (lines 111–137): `led_controller_t
controller = {0}` zero-initializes `grb_data` and `current_hue`; the rest of
the function only configures the RMT peripheral. -/
def initialize_led_controller : led_controller_t :=
  { grb_data := [0, 0, 0], current_hue := 0 }

/-- The hue update of `update_led_color` (lines 170–171):
`current_hue = (current_hue + HUE_STEP) % 360` with `HUE_STEP = 2` (the
`uint16_t` operand promotes to `int`, so no wraparound occurs before the
`% 360`). -/
def hue_transition (h : ℕ) : ℕ := (h + 2) % 360

/-- `update_led_color` (lines 149–172), with the `rmt_transmit` call abstracted
as the `transmit` capability.  In source order: write the conversion of the
current hue at `s = v = 100` into `grb_data`; transmit it, where
`ESP_ERROR_CHECK` aborts on error — modelled as an `Except.error` carrying the
error and the memory state at the abort point; emit the debug record when
`current_hue % 10 == 0`; finally advance `current_hue`. -/
def update_led_color {ε : Type} (transmit : List ℕ → Except ε Unit)
    (c0 : led_controller_t) :
    Except (ε × led_controller_t) (led_controller_t × Option LogRecord) :=
  let c := { c0 with grb_data := hsv_to_grb c0.current_hue 100 100 }
  match transmit c.grb_data with
  | .error e => .error (e, c)
  | .ok _ =>
    let logged := if c.current_hue % 10 = 0 then
        some ⟨c.current_hue, c.grb_data⟩ else none
    .ok ({ c with current_hue := hue_transition c.current_hue }, logged)

/-- A transmit capability that always succeeds: the normal-operation
environment for `app_main`'s loop. -/
def okTransmit : List ℕ → Except Unit Unit := fun _ => Except.ok ()

/-- `n` iterations of the `app_main` loop (lines 179–189) under a transmitter
that always succeeds, collecting the emitted observability records in order. -/
def run : ℕ → led_controller_t × List LogRecord
  | 0 => (initialize_led_controller, [])
  | n + 1 =>
    let p := run n
    match update_led_color okTransmit p.1 with
    | .ok (c2, some r) => (c2, p.2 ++ [r])
    | .ok (c2, none) => (c2, p.2)
    | .error _ => p

lemma update_led_color_okTransmit (c : led_controller_t) :
    update_led_color okTransmit c =
      .ok ({ grb_data := hsv_to_grb c.current_hue 100 100,
             current_hue := hue_transition c.current_hue },
           if c.current_hue % 10 = 0 then
             some ⟨c.current_hue, hsv_to_grb c.current_hue 100 100⟩ else none) := rfl

lemma run_hue (n : ℕ) : (run n).1.current_hue = 2 * n % 360 := by
  induction n with
  | zero => rfl
  | succ n ih =>
    simp only [run, update_led_color_okTransmit]
    by_cases h10 : (run n).1.current_hue % 10 = 0 <;>
      simp only [h10, if_true, if_false, reduceIte] <;>
      · show hue_transition (run n).1.current_hue = 2 * (n + 1) % 360
        rw [ih]; unfold hue_transition; omega

lemma run_length_succ (n : ℕ) :
    (run (n + 1)).2.length =
      (run n).2.length + (if (run n).1.current_hue % 10 = 0 then 1 else 0) := by
  simp only [run, update_led_color_okTransmit]
  by_cases h10 : (run n).1.current_hue % 10 = 0 <;> simp [h10]

lemma run_length_eq (n : ℕ) : (run n).2.length = (n + 4) / 5 := by
  induction n with
  | zero => rfl
  | succ n ih =>
    rw [run_length_succ, ih, run_hue]
    split_ifs with h <;> omega

lemma hue_transition_iterate (n h : ℕ) (hh : h < 360) :
    hue_transition^[n] h = (h + 2 * n) % 360 := by
  induction n with
  | zero => simpa using (Nat.mod_eq_of_lt hh).symm
  | succ n ih =>
    rw [Function.iterate_succ_apply', ih]
    unfold hue_transition
    omega

/-- C1: At full saturation and value the golden boundary outputs hold —
`hsv_to_grb 0 100 100 = [0,255,0]`, `hsv_to_grb 120 100 100 = [255,0,0]`,
`hsv_to_grb 240 100 100 = [0,0,255]` — and every sector-boundary hue
(60, 120, 180, 240, 300) is classified into the upper sector by the strict
`<` comparisons, i.e. sector membership is half-open `[0,60)`, `[60,120)`,
etc. -/
theorem hsv_to_grb_golden_and_half_open_sectors :
    hsv_to_grb 0 100 100 = [0, 255, 0] ∧
    hsv_to_grb 120 100 100 = [255, 0, 0] ∧
    hsv_to_grb 240 100 100 = [0, 0, 255] ∧
    ∀ C X : ℚ,
      sector_rgb 60 C X = (X, C, 0) ∧
      sector_rgb 120 C X = (0, C, X) ∧
      sector_rgb 180 C X = (0, X, C) ∧
      sector_rgb 240 C X = (X, 0, C) ∧
      sector_rgb 300 C X = (C, 0, X) :=
  ⟨by decide, by decide, by decide, fun C X => ⟨rfl, rfl, rfl, rfl, rfl⟩⟩

/-- C2: For every input triple, the wire output of `hsv_to_grb` is exactly the
`(g, r, b)` permutation of the standard HSV→RGB result `raw_rgb`: byte 0 is
the green channel, byte 1 the red channel, byte 2 the blue channel. -/
theorem hsv_to_grb_is_grb_permutation_of_raw_rgb (h s v : ℕ) :
    hsv_to_grb h s v =
      [(raw_rgb h s v).2.1, (raw_rgb h s v).1, (raw_rgb h s v).2.2] := rfl

/-- C3: Starting from the initial state (`current_hue = 0`), after `n`
successful steps of the animation loop, `current_hue = (2 * n) % 360`. -/
theorem current_hue_after_n_steps (n : ℕ) :
    (run n).1.current_hue = (2 * n) % 360 :=
  run_hue n

/-- C4 (counterexample): over one full 180-step cycle the observability sink
does not receive 18 records — the hue advances 2° per step, so a multiple of
10 is hit every 5 steps and 36 records are emitted. -/
theorem records_per_cycle_ne_18 : (run 180).2.length ≠ 18 := by
  rw [run_length_eq]
  omega

/-- C4 (amended): a record is emitted on a given step iff
`current_hue % 10 == 0` immediately before that step's hue update, and one
full 180-step cycle emits exactly 36 records (one per 5-step interval). -/
theorem records_emission_gating :
    (run 180).2.length = 36 ∧
    ∀ n, ((run (n + 1)).2.length = (run n).2.length + 1 ↔
          (run n).1.current_hue % 10 = 0) := by
  constructor
  · rw [run_length_eq]
  · intro n
    rw [run_length_succ, run_hue]
    constructor
    · intro hlen
      by_contra hmod
      simp only [if_neg hmod] at hlen
      omega
    · intro hmod
      simp only [if_pos hmod]

/-- C5: If the transmitter fails during a step, `update_led_color` propagates
the error as its result, and the animation state at the abort point has the
same `current_hue` as before the step: no hue advance, no retry, no
continuation. -/
theorem transmit_error_propagates {ε : Type}
    (transmit : List ℕ → Except ε Unit) (c : led_controller_t) (e : ε)
    (ht : transmit (hsv_to_grb c.current_hue 100 100) = .error e) :
    ∃ ca, update_led_color transmit c = .error (e, ca) ∧
      ca.current_hue = c.current_hue := by
  refine ⟨{ c with grb_data := hsv_to_grb c.current_hue 100 100 }, ?_, rfl⟩
  simp only [update_led_color, ht]

/-- C5 witness: a transmitter that always fails makes the step from the
initial state return its error with the hue still at 0. -/
theorem transmit_error_propagates_witness :
    ∃ ca, update_led_color (fun _ => Except.error ()) initialize_led_controller
        = .error ((), ca) ∧
      ca.current_hue = initialize_led_controller.current_hue :=
  transmit_error_propagates (fun _ => Except.error ())
    initialize_led_controller () rfl

/-- C6: The animation state invariant — `current_hue` is 0 at driver
construction, and after any successful step (under any transmitter, from any
state) `current_hue < 360`; in particular every reachable state of the loop
satisfies `current_hue < 360`. -/
theorem current_hue_invariant :
    initialize_led_controller.current_hue = 0 ∧
    (∀ {ε : Type} (transmit : List ℕ → Except ε Unit) c c2 logged,
      update_led_color transmit c = .ok (c2, logged) → c2.current_hue < 360) ∧
    ∀ n, (run n).1.current_hue < 360 := by
  refine ⟨rfl, ?_, ?_⟩
  · intro ε transmit c c2 logged heq
    simp only [update_led_color] at heq
    cases ht : transmit (hsv_to_grb c.current_hue 100 100) with
    | error e => rw [ht] at heq; cases heq
    | ok u =>
      rw [ht] at heq
      simp only [Except.ok.injEq, Prod.mk.injEq] at heq
      have : c2.current_hue = hue_transition c.current_hue := by
        rw [← heq.1]
      rw [this]
      unfold hue_transition
      omega
  · intro n
    rw [run_hue]
    omega

/-- C6 witness: one concrete successful step from the initial state lands on
`current_hue = 2 < 360`. -/
theorem current_hue_invariant_witness :
    ({ grb_data := hsv_to_grb 0 100 100, current_hue := hue_transition 0 } :
      led_controller_t).current_hue < 360 :=
  current_hue_invariant.2.1 okTransmit initialize_led_controller _ _ rfl

/-- C7: For every starting hue below 360, the step transition
`hue ↦ (hue + 2) % 360` returns to the starting hue after exactly 180
applications, and after no smaller positive number of applications. -/
theorem hue_cycle_period_180 (h : ℕ) (hh : h < 360) :
    hue_transition^[180] h = h ∧
    ∀ n, 0 < n → n < 180 → hue_transition^[n] h ≠ h := by
  constructor
  · rw [hue_transition_iterate 180 h hh]; omega
  · intro n hn hn180 heq
    rw [hue_transition_iterate n h hh] at heq
    omega

/-- C7 witness: from hue 0 the cycle closes after 180 steps and is not yet
closed after 90 steps. -/
theorem hue_cycle_period_180_witness :
    hue_transition^[180] 0 = 0 ∧ hue_transition^[90] 0 ≠ 0 :=
  ⟨(hue_cycle_period_180 0 (by decide)).1,
   (hue_cycle_period_180 0 (by decide)).2 90 (by decide) (by decide)⟩

/-- C8 (counterexample): the converter does not equal itself at the
mathematically normalized hue for every integer argument — at hue `-1` the
`uint16_t` argument conversion yields 65535, hence hue `15` after `% 360`,
while the mathematical `-1 mod 360` is 359, and the outputs differ. -/
theorem convert_int_not_mod_360_invariant :
    convert_int (-1) 100 100 ≠ convert_int ((-1) % 360) 100 100 := by
  decide

/-- C8 (amended): for every hue in the `uint16_t` parameter domain the
converter normalizes by `% 360` before use, so
`hsv_to_grb h s v = hsv_to_grb (h % 360) s v`; for general `int` arguments
the conversion modulo 2^16 precedes the `% 360`, and since 2^16 is not a
multiple of 360 this differs from mathematical modulo 360 for negative or
≥ 2^16 values. -/
theorem hsv_to_grb_mod_360 (h s v : ℕ) :
    hsv_to_grb h s v = hsv_to_grb (h % 360) s v := by
  have hmm : h % 360 % 360 = h % 360 := by omega
  simp only [hsv_to_grb, hmm]

/-- C9: The two HSV→GRB conversion implementations (`hsv_to_grb` in
`esp32s3_onboard_LED.c` and `hsv_to_grb` in `led_strip_example_main.c`) are
extensionally equal: the same 3-byte wire output on every input. -/
theorem hsv_to_grb_implementations_agree (h s v : ℕ) :
    hsv_to_grb h s v = hsv_to_grb_example h s v := rfl

/-- C10: At full saturation and value — the only setting the driver transmits —
every frame contains a byte equal to 255 and a byte equal to 0: chroma is 1
and the offset `m` is 0, so the maximal channel is exactly 255 and the minimal
channel exactly 0 in every sector. -/
theorem frame_has_full_and_zero_byte (h : ℕ) :
    255 ∈ hsv_to_grb h 100 100 ∧ 0 ∈ hsv_to_grb h 100 100 := by
  simp only [hsv_to_grb, sector_rgb, Nat.cast_ofNat]
  split_ifs <;>
    constructor <;>
      simp only [List.mem_cons, List.not_mem_nil, or_false] <;>
        first
          | exact Or.inl (by decide)
          | exact Or.inr (Or.inl (by decide))
          | exact Or.inr (Or.inr (by decide))
